import Mathlib

/-!
Verification development for the taskqueue-mcp task/project tracking backend.

The repository's `src/` tree contains the tool schema declarations
(`src/server/tools.ts`), the server glue (`src/server/index.ts`) and an
integration test, but the core implementation files they reference
(`TaskManager.ts`, `toolExecutors.ts`, the file-backed store, the error
helpers) are not present.  The data model, state-machine rules, allocator
and store below are therefore modelled from the specification (`spec.md`
sections 3 to 7), faithful to its words, and the properties are settled
against that model.
-/

namespace TaskQueue

/-- Modelled from the spec: task `status` is one of
`not started | in progress | done` (spec section 3, Task).  The concrete code
(`TaskManager.ts` / `types`) is missing from `src/`. -/
inductive TaskStatus
  | notStarted
  | inProgress
  | done
deriving DecidableEq

/-- Modelled from the spec: the Task record of spec section 3.
`toolRecommendations` and `ruleRecommendations` are optional free text.
The concrete code (`TaskManager.ts` / `types`) is missing from `src/`. -/
structure Task where
  id : String
  title : String
  description : String
  status : TaskStatus
  approved : Bool
  completedDetails : String
  toolRecommendations : Option String
  ruleRecommendations : Option String
deriving DecidableEq

/-- Modelled from the spec: the Project record of spec section 3, plus the
per-project high-water-mark task counter that spec sections 4.2 and 9 require
the allocator to track ("a monotonically increasing counter per project ...
independent of current collection size"). -/
structure Project where
  projectId : String
  initialPrompt : String
  projectPlan : String
  autoApprove : Bool
  completed : Bool
  taskCounter : Nat
  tasks : List Task
deriving DecidableEq

/-- Modelled from the spec: the aggregate root (spec section 3, Store): the
full ordered sequence of projects, plus the global high-water-mark project
counter required by spec sections 4.2 and 9. -/
structure State where
  projects : List Project
  projectCounter : Nat
deriving DecidableEq

/-- Modelled from the spec: the structured error kinds of spec section 7.
`storageError` covers unexpected I/O failure during save. -/
inductive AppError
  | validationError
  | notFoundError
  | parseError
  | conflictError
  | storageError
deriving DecidableEq

/-! ### Serialized document (spec section 6) -/

/-- A JSON-like document tree, the "single structured document" of spec
sections 4.1 and 6. -/
inductive Json
  | null
  | bool (b : Bool)
  | num (n : Nat)
  | str (s : String)
  | arr (elems : List Json)
  | obj (fields : List (String × Json))

/-- Modelled from the spec: render a task status to its serialized string
(spec section 6 schema). -/
def encodeStatus : TaskStatus → Json
  | .notStarted => .str "not started"
  | .inProgress => .str "in progress"
  | .done => .str "done"

/-- Modelled from the spec: parse a serialized task status; any other
document is malformed. -/
def decodeStatus : Json → Option TaskStatus
  | .str "not started" => some .notStarted
  | .str "in progress" => some .inProgress
  | .str "done" => some .done
  | _ => none

/-- Optional free-text fields serialize to `null` when absent. -/
def encodeOptStr : Option String → Json
  | none => .null
  | some s => .str s

/-- Parse an optional free-text field. -/
def decodeOptStr : Json → Option (Option String)
  | .null => some none
  | .str s => some (some s)
  | _ => none

/-- Modelled from the spec: serialize one task following the schema of spec
section 6. -/
def encodeTask (t : Task) : Json :=
  .obj [("id", .str t.id), ("title", .str t.title),
        ("description", .str t.description),
        ("status", encodeStatus t.status), ("approved", .bool t.approved),
        ("completedDetails", .str t.completedDetails),
        ("toolRecommendations", encodeOptStr t.toolRecommendations),
        ("ruleRecommendations", encodeOptStr t.ruleRecommendations)]

/-- Modelled from the spec: parse one task from the schema of spec
section 6; any shape deviation is malformed. -/
def decodeTask : Json → Option Task
  | .obj [("id", .str i), ("title", .str ti), ("description", .str d),
          ("status", st), ("approved", .bool ap),
          ("completedDetails", .str cd),
          ("toolRecommendations", tr), ("ruleRecommendations", rr)] =>
    match decodeStatus st, decodeOptStr tr, decodeOptStr rr with
    | some s, some trv, some rrv =>
        some { id := i, title := ti, description := d, status := s,
               approved := ap, completedDetails := cd,
               toolRecommendations := trv, ruleRecommendations := rrv }
    | _, _, _ => none
  | _ => none

/-- Parse a homogeneous list of documents; fails if any element fails. -/
def decodeList (dec : Json → Option α) : List Json → Option (List α)
  | [] => some []
  | j :: js =>
    match dec j, decodeList dec js with
    | some x, some xs => some (x :: xs)
    | _, _ => none

/-- Modelled from the spec: serialize one project following the schema of
spec section 6; the high-water-mark task counter is persisted per spec
section 9 ("persist or reconstruct a high-water-mark counter per scope"). -/
def encodeProject (p : Project) : Json :=
  .obj [("projectId", .str p.projectId),
        ("initialPrompt", .str p.initialPrompt),
        ("projectPlan", .str p.projectPlan),
        ("autoApprove", .bool p.autoApprove),
        ("completed", .bool p.completed),
        ("taskCounter", .num p.taskCounter),
        ("tasks", .arr (p.tasks.map encodeTask))]

/-- Modelled from the spec: parse one project; any shape deviation is
malformed. -/
def decodeProject : Json → Option Project
  | .obj [("projectId", .str pid), ("initialPrompt", .str ip),
          ("projectPlan", .str pp), ("autoApprove", .bool aa),
          ("completed", .bool c), ("taskCounter", .num tc),
          ("tasks", .arr ts)] =>
    match decodeList decodeTask ts with
    | some tasks =>
        some { projectId := pid, initialPrompt := ip, projectPlan := pp,
               autoApprove := aa, completed := c, taskCounter := tc,
               tasks := tasks }
    | none => none
  | _ => none

/-- Modelled from the spec: serialize the whole state (spec section 6
persisted file schema, plus the global project counter per spec
section 9). -/
def encodeState (s : State) : Json :=
  .obj [("projects", .arr (s.projects.map encodeProject)),
        ("projectCounter", .num s.projectCounter)]

/-- Modelled from the spec: parse the whole state; any shape deviation is
malformed. -/
def decodeState : Json → Option State
  | .obj [("projects", .arr ps), ("projectCounter", .num pc)] =>
    match decodeList decodeProject ps with
    | some projects => some { projects := projects, projectCounter := pc }
    | none => none
  | _ => none

/-! ### Store (spec section 4.1) -/

/-- The empty initial state of spec section 4.1: no projects yet, no ids
ever allocated. -/
def emptyState : State := { projects := [], projectCounter := 0 }

/-- Modelled from the spec: `save(State) -> void` writes the serialized
document to the backing file (spec section 4.1).  The backing file is
modelled as `Option Json`: `none` is a missing file, `some j` a present
file whose parsed document tree is `j`. -/
def saveStore (s : State) : Option Json := some (encodeState s)

/-- Modelled from the spec: `load() -> State` (spec section 4.1).  A
missing backing file yields the empty initial state rather than an error;
a present but malformed file fails with `ParseError`. -/
def loadStore : Option Json → Except AppError State
  | none => .ok emptyState
  | some j =>
    match decodeState j with
    | some s => .ok s
    | none => .error .parseError

/-! ### ID allocator (spec section 4.2) -/

/-- Modelled from the spec: render a task id `task-<n>`
(spec sections 3 and 4.2). -/
def mkTaskId (n : Nat) : String := "task-" ++ Nat.repr n

/-- Modelled from the spec: render a project id `proj-<n>`
(spec sections 3 and 4.2). -/
def mkProjectId (n : Nat) : String := "proj-" ++ Nat.repr n

/-- Modelled from the spec: the next task id inside a project is the next
value of the per-project monotonically increasing counter, independent of
the current collection size (spec section 4.2). -/
def nextTaskId (p : Project) : String := mkTaskId (p.taskCounter + 1)

/-- A freshly created task: initial status `not started`, unapproved, no
completion details (spec section 3). -/
def mkTask (id title description : String) : Task :=
  { id := id, title := title, description := description,
    status := .notStarted, approved := false, completedDetails := "",
    toolRecommendations := none, ruleRecommendations := none }

/-! ### Manager operations (spec sections 4.3 and 4.4) -/

/-- Look up a project by id (first match in sequence order). -/
def findProject (s : State) (pid : String) : Option Project :=
  s.projects.find? (fun q => q.projectId == pid)

/-- Replace the project with id `pid` by `p'` in the state. -/
def replaceProject (s : State) (pid : String) (p' : Project) : State :=
  { s with projects := s.projects.map (fun q => if q.projectId == pid then p' else q) }

/-- Look up a task by id within a project (first match in sequence order). -/
def findTask (p : Project) (tid : String) : Option Task :=
  p.tasks.find? (fun t => t.id == tid)

/-- Replace the task with id `tid` by `t'` in the project. -/
def replaceTask (p : Project) (tid : String) (t' : Task) : Project :=
  { p with tasks := p.tasks.map (fun t => if t.id == tid then t' else t) }

/-- The finalization gate for one task: `status = done AND approved = true`
(spec section 4.3). -/
def taskGate (t : Task) : Bool :=
  (t.status == TaskStatus.done) && t.approved

/-- Modelled from the spec: finalize a project (spec section 4.3).
Finalizing an already-completed project fails with `ValidationError`;
otherwise finalization succeeds exactly when every task passes the gate
(vacuously true for zero tasks), setting `completed := true`.  The concrete
code (`TaskManager.ts`) is missing from `src/`. -/
def finalizeProject (s : State) (pid : String) : Except AppError State :=
  match findProject s pid with
  | none => .error .notFoundError
  | some p =>
    if p.completed then .error .validationError
    else if p.tasks.all taskGate then
      .ok (replaceProject s pid { p with completed := true })
    else .error .validationError

/-- Modelled from the spec: the argument bag of `update_task`; omitted
fields are left unchanged (partial update, spec section 3). -/
structure UpdateTaskArgs where
  title : Option String := none
  description : Option String := none
  status : Option TaskStatus := none
  completedDetails : Option String := none
  toolRecommendations : Option String := none
  ruleRecommendations : Option String := none
deriving DecidableEq

/-- Apply a partial update to an unapproved task.  When the owning project
has `autoApprove` set and the task reaches `done`, `approved` is set in the
same operation (spec sections 4.3 and glossary). -/
def applyUpdate (auto : Bool) (t : Task) (a : UpdateTaskArgs) : Task :=
  let newStatus := a.status.getD t.status
  { t with
    title := a.title.getD t.title,
    description := a.description.getD t.description,
    status := newStatus,
    completedDetails := a.completedDetails.getD t.completedDetails,
    toolRecommendations :=
      match a.toolRecommendations with
      | some v => some v
      | none => t.toolRecommendations,
    ruleRecommendations :=
      match a.ruleRecommendations with
      | some v => some v
      | none => t.ruleRecommendations,
    approved := auto && (newStatus == TaskStatus.done) }

/-- Modelled from the spec: `update_task` (spec sections 3, 4.3, 4.4 and 7).
Unknown ids fail with `NotFoundError`; a frozen (approved) task fails with
`ConflictError` before anything else is considered; reaching `done` without
non-empty completion details (previously set or supplied now) fails with
`ValidationError`; while unapproved, status may otherwise be freely reset
(spec section 4.3).  The concrete code (`TaskManager.ts`) is missing from
`src/`. -/
def updateTask (s : State) (pid tid : String) (a : UpdateTaskArgs) :
    Except AppError State :=
  match findProject s pid with
  | none => .error .notFoundError
  | some p =>
    match findTask p tid with
    | none => .error .notFoundError
    | some t =>
      if t.approved then .error .conflictError
      else
        let newStatus := a.status.getD t.status
        let newDetails := a.completedDetails.getD t.completedDetails
        if newStatus == TaskStatus.done && newDetails == "" then
          .error .validationError
        else
          .ok (replaceProject s pid (replaceTask p tid (applyUpdate p.autoApprove t a)))

/-- Modelled from the spec: `approve_task` (spec section 4.3): requires
current status `done`, otherwise `ValidationError`; re-approving a frozen
task fails with `ConflictError`; on success sets `approved := true`. -/
def approveTask (s : State) (pid tid : String) : Except AppError State :=
  match findProject s pid with
  | none => .error .notFoundError
  | some p =>
    match findTask p tid with
    | none => .error .notFoundError
    | some t =>
      if t.approved then .error .conflictError
      else if t.status == TaskStatus.done then
        .ok (replaceProject s pid (replaceTask p tid { t with approved := true }))
      else .error .validationError

/-- Modelled from the spec: `get_next_task` (spec section 4.3): the first
task in sequence order whose `approved = false`, regardless of status;
`none` is the "no remaining task" signal. -/
def getNextTask (s : State) (pid : String) : Except AppError (Option Task) :=
  match findProject s pid with
  | none => .error .notFoundError
  | some p => .ok (p.tasks.find? (fun t => !t.approved))

/-- Modelled from the spec: `create_task` / one element of
`add_tasks_to_project` (spec sections 4.2 and 4.4): required fields must be
non-empty, the new task is appended and receives the next counter value. -/
def addTask (s : State) (pid title description : String) :
    Except AppError State :=
  match findProject s pid with
  | none => .error .notFoundError
  | some p =>
    if title == "" || description == "" then .error .validationError
    else
      .ok (replaceProject s pid
        { p with tasks := p.tasks ++ [mkTask (nextTaskId p) title description],
                 taskCounter := p.taskCounter + 1 })

/-- Modelled from the spec: `delete_task` (spec sections 3 and 4.4):
removes the task from the sequence without renumbering other tasks and
without decreasing the allocation counter. -/
def deleteTask (s : State) (pid tid : String) : Except AppError State :=
  match findProject s pid with
  | none => .error .notFoundError
  | some p =>
    match findTask p tid with
    | none => .error .notFoundError
    | some _ =>
      .ok (replaceProject s pid
        { p with tasks := p.tasks.filter (fun t => t.id != tid) })

/-- Allocate sequential task ids `task-(c+1), task-(c+2), ...` for a batch
of `(title, description)` pairs starting above counter value `c`. -/
def allocTasks (c : Nat) : List (String × String) → List Task
  | [] => []
  | (ti, d) :: rest => mkTask (mkTaskId (c + 1)) ti d :: allocTasks (c + 1) rest

/-- Modelled from the spec: `create_project` (spec sections 3 and 4.4):
requires a non-empty initial prompt and non-empty task titles and
descriptions; `projectPlan` defaults to `initialPrompt`; `autoApprove` is
fixed at creation (default false); tasks receive sequential ids starting
at `task-1`. -/
def createProject (s : State) (initialPrompt : String)
    (taskInputs : List (String × String)) (projectPlan : Option String)
    (autoApprove : Bool) : Except AppError State :=
  if initialPrompt == "" then .error .validationError
  else if taskInputs.any (fun td => td.1 == "" || td.2 == "") then
    .error .validationError
  else
    .ok { projects := s.projects ++
            [{ projectId := mkProjectId (s.projectCounter + 1),
               initialPrompt := initialPrompt,
               projectPlan := projectPlan.getD initialPrompt,
               autoApprove := autoApprove,
               completed := false,
               taskCounter := taskInputs.length,
               tasks := allocTasks 0 taskInputs }],
          projectCounter := s.projectCounter + 1 }

/-! ### Manager persistence wrapper (spec sections 4.4 and 5) -/

/-- The observable outcome of one mutating Manager operation: the backing
file afterwards, how many Store save calls happened, and the structured
error if the operation failed. -/
structure RunResult where
  file : Option Json
  saves : Nat
  error : Option AppError

/-- Modelled from the spec: the load-validate-mutate-save sequence every
mutating Manager operation performs under the exclusive lock (spec
sections 2, 4.4 and 5): load the state from the backing file, apply the
operation, and persist through Store exactly when validation succeeded.
The concrete code (`TaskManager.ts`) is missing from `src/`. -/
def runMutating (op : State → Except AppError State) (file : Option Json) :
    RunResult :=
  match loadStore file with
  | .error e => { file := file, saves := 0, error := some e }
  | .ok s =>
    match op s with
    | .error e => { file := file, saves := 0, error := some e }
    | .ok s' => { file := saveStore s', saves := 1, error := none }

/-! ### Helper lemmas: serialization round-trip -/

theorem decodeStatus_encodeStatus (st : TaskStatus) :
    decodeStatus (encodeStatus st) = some st := by
  cases st <;> rfl

theorem decodeOptStr_encodeOptStr (o : Option String) :
    decodeOptStr (encodeOptStr o) = some o := by
  cases o <;> rfl

theorem decodeTask_encodeTask (t : Task) :
    decodeTask (encodeTask t) = some t := by
  obtain ⟨i, ti, d, st, ap, cd, tr, rr⟩ := t
  cases st <;> cases tr <;> cases rr <;> rfl

theorem decodeList_map {α : Type} (dec : Json → Option α) (enc : α → Json)
    (h : ∀ x, dec (enc x) = some x) :
    ∀ l : List α, decodeList dec (l.map enc) = some l := by
  intro l
  induction l with
  | nil => rfl
  | cons x xs ih => simp [decodeList, h x, ih]

theorem decodeProject_encodeProject (p : Project) :
    decodeProject (encodeProject p) = some p := by
  obtain ⟨pid, ip, pp, aa, c, tc, ts⟩ := p
  simp [encodeProject, decodeProject,
    decodeList_map decodeTask encodeTask decodeTask_encodeTask]

theorem decodeState_encodeState (s : State) :
    decodeState (encodeState s) = some s := by
  obtain ⟨ps, pc⟩ := s
  simp [encodeState, decodeState,
    decodeList_map decodeProject encodeProject decodeProject_encodeProject]

theorem loadStore_saveStore (s : State) : loadStore (saveStore s) = .ok s := by
  simp [loadStore, saveStore, decodeState_encodeState]

/-! ### Helper lemmas: find? over a replacing map -/

theorem find?_map_replace {α : Type} (q : α → Bool) (y : α) (hy : q y = true) :
    ∀ (l : List α) (x : α), l.find? q = some x →
      (l.map fun u => if q u then y else u).find? q = some y := by
  intro l
  induction l with
  | nil => intro x hx; simp [List.find?] at hx
  | cons h t ih =>
    intro x hx
    by_cases hqh : q h = true
    · simp [List.map, hqh, List.find?_cons_of_pos, hy]
    · have hqh' : q h = false := by simpa using hqh
      rw [List.find?_cons_of_neg _ (by simp [hqh'])] at hx
      simpa [List.map, hqh', List.find?_cons_of_neg] using ih x hx

/-! ### Helper lemmas: decimal rendering is injective -/

/-- The numeric value of a decimal digit character. -/
def digitVal (c : Char) : Nat := c.toNat - 48

/-- Fold a digit string onto an accumulator, most significant first. -/
def valAux (a : Nat) (l : List Char) : Nat :=
  l.foldl (fun x c => 10 * x + digitVal c) a

theorem valAux_nil (a : Nat) : valAux a [] = a := rfl

theorem valAux_cons (a : Nat) (c : Char) (l : List Char) :
    valAux a (c :: l) = valAux (10 * a + digitVal c) l := rfl

theorem digitVal_digitChar : ∀ d : Nat, d < 10 →
    digitVal (Nat.digitChar d) = d := by decide

theorem valAux_toDigitsCore (f : Nat) : ∀ (n : Nat) (acc : List Char) (a : Nat),
    0 < f → n < 10 ^ f →
    ∃ k, valAux a (Nat.toDigitsCore 10 f n acc) = valAux (a * 10 ^ k + n) acc := by
  induction f with
  | zero => intro n acc a h hn; exact absurd h (lt_irrefl 0)
  | succ f ih =>
    intro n acc a _ hn
    by_cases h0 : n / 10 = 0
    · refine ⟨1, ?_⟩
      have hlt : n < 10 := by omega
      have hmod : n % 10 = n := Nat.mod_eq_of_lt hlt
      have hstep : Nat.toDigitsCore 10 (f + 1) n acc =
          Nat.digitChar (n % 10) :: acc := by
        simp [Nat.toDigitsCore, h0]
      rw [hstep, valAux_cons, hmod, digitVal_digitChar n hlt]
      congr 1
      ring
    · have hf : 0 < f := by
        rcases Nat.eq_zero_or_pos f with hf0 | hf0
        · subst hf0
          have hn10 : n < 10 := by simpa using hn
          omega
        · exact hf0
      have hdiv : n / 10 < 10 ^ f := by
        rw [Nat.div_lt_iff_lt_mul (by norm_num)]
        calc n < 10 ^ (f + 1) := hn
        _ = 10 ^ f * 10 := by rw [pow_succ]
      obtain ⟨k, hk⟩ := ih (n / 10) (Nat.digitChar (n % 10) :: acc) a hf hdiv
      refine ⟨k + 1, ?_⟩
      have hstep : Nat.toDigitsCore 10 (f + 1) n acc =
          Nat.toDigitsCore 10 f (n / 10) (Nat.digitChar (n % 10) :: acc) := by
        simp [Nat.toDigitsCore, h0]
      rw [hstep, hk, valAux_cons,
        digitVal_digitChar (n % 10) (Nat.mod_lt n (by norm_num))]
      congr 1
      rw [pow_succ, ← mul_assoc]
      generalize a * 10 ^ k = b
      omega

theorem valAux_toDigits (n : Nat) : valAux 0 (Nat.toDigits 10 n) = n := by
  have hbound : n < 10 ^ (n + 1) :=
    lt_of_lt_of_le (Nat.lt_pow_self (by norm_num) n)
      (Nat.pow_le_pow_right (by norm_num) (Nat.le_succ n))
  obtain ⟨k, hk⟩ :=
    valAux_toDigitsCore (n + 1) n [] 0 (Nat.succ_pos n) hbound
  rw [Nat.toDigits] at *
  rw [hk, valAux_nil]
  ring

theorem repr_inj {m n : Nat} (h : Nat.repr m = Nat.repr n) : m = n := by
  have h3 : Nat.toDigits 10 m = Nat.toDigits 10 n := congrArg String.data h
  have h4 := congrArg (valAux 0) h3
  rwa [valAux_toDigits, valAux_toDigits] at h4

theorem mkTaskId_inj {m n : Nat} (h : mkTaskId m = mkTaskId n) : m = n := by
  simp only [mkTaskId] at h
  have hd := congrArg String.data h
  rw [String.data_append, String.data_append] at hd
  exact repr_inj (String.ext (List.append_cancel_left hd))

/-! ### Equation lemmas for operations under a successful lookup -/

theorem finalizeProject_eq (s : State) (pid : String) (p : Project)
    (hp : findProject s pid = some p) :
    finalizeProject s pid =
      if p.completed then .error .validationError
      else if p.tasks.all taskGate then
        .ok (replaceProject s pid { p with completed := true })
      else .error .validationError := by
  unfold finalizeProject
  rw [hp]

theorem updateTask_eq (s : State) (pid tid : String) (p : Project) (t : Task)
    (a : UpdateTaskArgs) (hp : findProject s pid = some p)
    (ht : findTask p tid = some t) :
    updateTask s pid tid a =
      if t.approved then .error .conflictError
      else if (a.status.getD t.status) == TaskStatus.done &&
              (a.completedDetails.getD t.completedDetails) == "" then
        .error .validationError
      else
        .ok (replaceProject s pid
          (replaceTask p tid (applyUpdate p.autoApprove t a))) := by
  unfold updateTask
  rw [hp]
  dsimp only
  rw [ht]

theorem getNextTask_eq (s : State) (pid : String) (p : Project)
    (hp : findProject s pid = some p) :
    getNextTask s pid = .ok (p.tasks.find? (fun t => !t.approved)) := by
  unfold getNextTask
  rw [hp]

theorem addTask_eq (s : State) (pid title description : String) (p : Project)
    (hp : findProject s pid = some p) :
    addTask s pid title description =
      if title == "" || description == "" then .error .validationError
      else
        .ok (replaceProject s pid
          { p with tasks := p.tasks ++ [mkTask (nextTaskId p) title description],
                   taskCounter := p.taskCounter + 1 }) := by
  unfold addTask
  rw [hp]

theorem deleteTask_eq (s : State) (pid tid : String) (p : Project) (t : Task)
    (hp : findProject s pid = some p) (ht : findTask p tid = some t) :
    deleteTask s pid tid =
      .ok (replaceProject s pid
        { p with tasks := p.tasks.filter (fun u => u.id != tid) }) := by
  unfold deleteTask
  rw [hp]
  dsimp only
  rw [ht]

/-! ### Claims -/

/-- Claim C1: for every project, `finalize_project` succeeds if and only if
the project is not already completed and every task has `status = done` and
`approved = true` (vacuously satisfied by zero tasks); on success it sets
`completed = true`, and finalizing an already-completed project fails with
`ValidationError`. -/
theorem c1_finalize_gate (s : State) (pid : String) (p : Project)
    (hp : findProject s pid = some p) :
    ((∃ s', finalizeProject s pid = .ok s') ↔
      (p.completed = false ∧
        ∀ t ∈ p.tasks, t.status = TaskStatus.done ∧ t.approved = true)) ∧
    (∀ s', finalizeProject s pid = .ok s' →
      findProject s' pid = some { p with completed := true }) ∧
    (p.completed = true →
      finalizeProject s pid = .error .validationError) := by
  have hp' : s.projects.find? (fun q => q.projectId == pid) = some p := hp
  have hqp : (p.projectId == pid) = true := by
    simpa using List.find?_some hp'
  have heq := finalizeProject_eq s pid p hp
  refine ⟨?_, ?_, ?_⟩
  · constructor
    · rintro ⟨s', hs'⟩
      rw [heq] at hs'
      split_ifs at hs' with hc hall
      refine ⟨by simpa using hc, ?_⟩
      intro t ht
      have hg := List.all_eq_true.mp hall t ht
      simpa [taskGate] using hg
    · rintro ⟨hc, hall⟩
      refine ⟨replaceProject s pid { p with completed := true }, ?_⟩
      rw [heq, if_neg (by simp [hc]), if_pos]
      exact List.all_eq_true.mpr fun t ht => by
        simpa [taskGate] using hall t ht
  · intro s' hs'
    rw [heq] at hs'
    split_ifs at hs' with hc hall
    injection hs' with hs''
    subst hs''
    exact find?_map_replace _ _ (by simpa using hqp) _ p hp
  · intro hc
    rw [heq, if_pos hc]

/-- A concrete zero-task project used by the C1 witness. -/
def projEmpty : Project :=
  { projectId := "proj-1", initialPrompt := "p", projectPlan := "p",
    autoApprove := false, completed := false, taskCounter := 0, tasks := [] }

/-- A concrete one-project state used by the C1 witness. -/
def stateEmptyProj : State :=
  { projects := [projEmpty], projectCounter := 1 }

/-- Witness for C1 at a concrete input: a not-yet-completed project with
zero tasks can be finalized (the gate is vacuously satisfied). -/
theorem c1_finalize_gate_witness :
    ∃ s', finalizeProject stateEmptyProj "proj-1" = .ok s' :=
  ((c1_finalize_gate stateEmptyProj "proj-1" projEmpty rfl).1).mpr
    ⟨rfl, by simp [projEmpty]⟩

/-- A mutating operation that fails leaves the backing file untouched and
performs no save (helper for the persistence conjuncts below). -/
theorem runMutating_saved_error (op : State → Except AppError State)
    (s : State) (e : AppError) (h : op s = .error e) :
    runMutating op (saveStore s) =
      { file := saveStore s, saves := 0, error := some e } := by
  unfold runMutating
  rw [loadStore_saveStore]
  dsimp only
  rw [h]

/-- Searching a list finds the head of the tail past a run of non-matching
elements. -/
theorem find?_append_first {α : Type} (q : α → Bool) :
    ∀ (l1 : List α) (t : α) (l2 : List α), (∀ u ∈ l1, q u = false) →
      q t = true → (l1 ++ t :: l2).find? q = some t := by
  intro l1
  induction l1 with
  | nil =>
    intro t l2 _ hq
    rw [List.nil_append]
    exact List.find?_cons_of_pos l2 hq
  | cons h tl ih =>
    intro t l2 hall hq
    have hh : q h = false := hall h (List.mem_cons_self h tl)
    rw [List.cons_append, List.find?_cons_of_neg _ (by simp [hh])]
    exact ih t l2 (fun u hu => hall u (List.mem_cons_of_mem h hu)) hq

/-- Claim C2: once a task has `approved = true`, any `update_task` attempt
on it fails with `ConflictError`, and the persisted state (hence every
field of the task) is unchanged by the failed call. -/
theorem c2_frozen_task (s : State) (pid tid : String) (p : Project)
    (t : Task) (a : UpdateTaskArgs) (hp : findProject s pid = some p)
    (ht : findTask p tid = some t) (happ : t.approved = true) :
    updateTask s pid tid a = .error .conflictError ∧
    (runMutating (fun σ => updateTask σ pid tid a) (saveStore s)).file =
      saveStore s := by
  have herr : updateTask s pid tid a = .error .conflictError := by
    rw [updateTask_eq s pid tid p t a hp ht, if_pos happ]
  exact ⟨herr, by rw [runMutating_saved_error _ s .conflictError herr]⟩

/-- A concrete approved (frozen) task used by the C2 witness. -/
def taskFrozen : Task :=
  { id := "task-1", title := "t", description := "d",
    status := .done, approved := true, completedDetails := "ok",
    toolRecommendations := none, ruleRecommendations := none }

/-- A concrete project holding the frozen task, used by the C2 witness. -/
def projFrozen : Project :=
  { projectId := "proj-1", initialPrompt := "p", projectPlan := "p",
    autoApprove := false, completed := false, taskCounter := 1,
    tasks := [taskFrozen] }

/-- A concrete state holding the frozen project, used by the C2 witness. -/
def stateFrozen : State := { projects := [projFrozen], projectCounter := 1 }

/-- Witness for C2 at a concrete input: a title update on an approved task
is rejected with `ConflictError` and the backing file is untouched. -/
theorem c2_frozen_task_witness :
    updateTask stateFrozen "proj-1" "task-1" { title := some "new" } =
      .error .conflictError ∧
    (runMutating
      (fun σ => updateTask σ "proj-1" "task-1" { title := some "new" })
      (saveStore stateFrozen)).file = saveStore stateFrozen :=
  c2_frozen_task stateFrozen "proj-1" "task-1" projFrozen taskFrozen
    { title := some "new" } rfl rfl rfl

/-- Claim C3: updating a task whose completion details were never set to
`status = done`, without supplying non-empty `completedDetails` in the same
call, fails with `ValidationError`, and the persisted state (hence the
task's status) is unchanged by the failed call. -/
theorem c3_done_requires_details (s : State) (pid tid : String)
    (p : Project) (t : Task) (a : UpdateTaskArgs)
    (hp : findProject s pid = some p) (ht : findTask p tid = some t)
    (happ : t.approved = false) (hprev : t.completedDetails = "")
    (hnow : a.completedDetails = none ∨ a.completedDetails = some "")
    (hst : a.status = some TaskStatus.done) :
    updateTask s pid tid a = .error .validationError ∧
    (runMutating (fun σ => updateTask σ pid tid a) (saveStore s)).file =
      saveStore s := by
  have herr : updateTask s pid tid a = .error .validationError := by
    rw [updateTask_eq s pid tid p t a hp ht, if_neg (by simp [happ]),
      if_pos]
    rcases hnow with h | h <;> simp [hst, h, hprev]
  exact ⟨herr, by rw [runMutating_saved_error _ s .validationError herr]⟩

/-- A concrete unstarted task without completion details, used by the C3
witness. -/
def taskFresh : Task :=
  { id := "task-1", title := "t", description := "d",
    status := .notStarted, approved := false, completedDetails := "",
    toolRecommendations := none, ruleRecommendations := none }

/-- A concrete project holding the fresh task, used by the C3 witness. -/
def projFresh : Project :=
  { projectId := "proj-1", initialPrompt := "p", projectPlan := "p",
    autoApprove := false, completed := false, taskCounter := 1,
    tasks := [taskFresh] }

/-- A concrete state holding the fresh project, used by the C3 witness. -/
def stateFresh : State := { projects := [projFresh], projectCounter := 1 }

/-- Witness for C3 at a concrete input: setting `status = done` with no
`completedDetails` on a task that never had any is rejected with
`ValidationError` and the backing file is untouched. -/
theorem c3_done_requires_details_witness :
    updateTask stateFresh "proj-1" "task-1"
      { status := some TaskStatus.done } = .error .validationError ∧
    (runMutating
      (fun σ => updateTask σ "proj-1" "task-1"
        { status := some TaskStatus.done })
      (saveStore stateFresh)).file = saveStore stateFresh :=
  c3_done_requires_details stateFresh "proj-1" "task-1" projFresh taskFresh
    { status := some TaskStatus.done } rfl rfl rfl rfl (Or.inl rfl) rfl

/-- Claim C5: `get_next_task` returns the first task in sequence order with
`approved = false`, regardless of its status, and returns the
no-remaining-task signal (`none`) when every task is approved. -/
theorem c5_next_task (s : State) (pid : String) (p : Project)
    (hp : findProject s pid = some p) :
    ((∀ t ∈ p.tasks, t.approved = true) → getNextTask s pid = .ok none) ∧
    (∀ (l1 : List Task) (t : Task) (l2 : List Task),
      p.tasks = l1 ++ t :: l2 → (∀ u ∈ l1, u.approved = true) →
      t.approved = false → getNextTask s pid = .ok (some t)) := by
  have heq := getNextTask_eq s pid p hp
  constructor
  · intro hall
    rw [heq]
    have : p.tasks.find? (fun t => !t.approved) = none :=
      List.find?_eq_none.mpr fun t ht => by simp [hall t ht]
    rw [this]
  · intro l1 t l2 hsplit hall hfalse
    rw [heq, hsplit]
    rw [find?_append_first _ l1 t l2 (fun u hu => by simp [hall u hu])
      (by simp [hfalse])]

/-- The three tasks of the C5 witness scenario:
done-and-approved, in-progress-unapproved, not-started-unapproved. -/
def taskDoneApproved : Task :=
  { id := "task-1", title := "a", description := "d",
    status := .done, approved := true, completedDetails := "ok",
    toolRecommendations := none, ruleRecommendations := none }

/-- Second task of the C5 witness scenario: in progress, unapproved. -/
def taskInProgress : Task :=
  { id := "task-2", title := "b", description := "d",
    status := .inProgress, approved := false, completedDetails := "",
    toolRecommendations := none, ruleRecommendations := none }

/-- Third task of the C5 witness scenario: not started, unapproved. -/
def taskNotStarted : Task :=
  { id := "task-3", title := "c", description := "d",
    status := .notStarted, approved := false, completedDetails := "",
    toolRecommendations := none, ruleRecommendations := none }

/-- The project of the C5 witness scenario. -/
def projThree : Project :=
  { projectId := "proj-1", initialPrompt := "p", projectPlan := "p",
    autoApprove := false, completed := false, taskCounter := 3,
    tasks := [taskDoneApproved, taskInProgress, taskNotStarted] }

/-- The state of the C5 witness scenario. -/
def stateThree : State := { projects := [projThree], projectCounter := 1 }

/-- Witness for C5 at the spec's concrete scenario: with tasks
`[done+approved, in progress+unapproved, not started+unapproved]`,
`get_next_task` returns the second task. -/
theorem c5_next_task_witness :
    getNextTask stateThree "proj-1" = .ok (some taskInProgress) :=
  (c5_next_task stateThree "proj-1" projThree rfl).2
    [taskDoneApproved] taskInProgress [taskNotStarted] rfl
    (by intro u hu; simp at hu; subst hu; rfl) rfl

/-- Claim C6: in a project with `autoApprove = true`, an `update_task` that
marks a task `done` also sets `approved = true` in the same operation. -/
theorem c6_auto_approve (s : State) (pid tid : String) (p : Project)
    (t : Task) (a : UpdateTaskArgs) (s' : State)
    (hp : findProject s pid = some p) (ht : findTask p tid = some t)
    (hauto : p.autoApprove = true) (hst : a.status = some TaskStatus.done)
    (hok : updateTask s pid tid a = .ok s') :
    ∃ p' t', findProject s' pid = some p' ∧ findTask p' tid = some t' ∧
      t'.approved = true ∧ t'.status = TaskStatus.done := by
  have hp' : s.projects.find? (fun q => q.projectId == pid) = some p := hp
  have hqp : (p.projectId == pid) = true := by
    simpa using List.find?_some hp'
  have ht' : p.tasks.find? (fun u => u.id == tid) = some t := ht
  have hqt : (t.id == tid) = true := by
    simpa using List.find?_some ht'
  rw [updateTask_eq s pid tid p t a hp ht] at hok
  split_ifs at hok with h1 h2
  injection hok with hok'
  subst hok'
  refine ⟨replaceTask p tid (applyUpdate p.autoApprove t a),
    applyUpdate p.autoApprove t a, ?_, ?_, ?_, ?_⟩
  · exact find?_map_replace _ _ (by simpa using hqp) _ p hp
  · exact find?_map_replace _ _ (by simpa using hqt) _ t ht
  · simp [applyUpdate, hauto, hst]
  · simp [applyUpdate, hst]

/-- The unstarted task of the C6 witness scenario. -/
def taskAuto : Task :=
  { id := "task-1", title := "t", description := "d",
    status := .notStarted, approved := false, completedDetails := "",
    toolRecommendations := none, ruleRecommendations := none }

/-- The auto-approve project of the C6 witness scenario. -/
def projAuto : Project :=
  { projectId := "proj-1", initialPrompt := "p", projectPlan := "p",
    autoApprove := true, completed := false, taskCounter := 1,
    tasks := [taskAuto] }

/-- The state of the C6 witness scenario. -/
def stateAuto : State := { projects := [projAuto], projectCounter := 1 }

/-- The C6 witness task after the update: done, auto-approved. -/
def taskAutoDone : Task :=
  { id := "task-1", title := "t", description := "d",
    status := .done, approved := true, completedDetails := "did it",
    toolRecommendations := none, ruleRecommendations := none }

/-- The state of the C6 witness scenario after the update. -/
def stateAutoDone : State :=
  { projects := [{ projAuto with tasks := [taskAutoDone] }],
    projectCounter := 1 }

/-- Witness for C6 at the spec's concrete scenario: a project created with
`autoApprove = true` and one task; setting that task to `done` with
completion details yields `approved = true` with no separate approval
call. -/
theorem c6_auto_approve_witness :
    ∃ p' t', findProject stateAutoDone "proj-1" = some p' ∧
      findTask p' "task-1" = some t' ∧
      t'.approved = true ∧ t'.status = TaskStatus.done :=
  c6_auto_approve stateAuto "proj-1" "task-1" projAuto taskAuto
    { status := some TaskStatus.done, completedDetails := some "did it" }
    stateAutoDone rfl rfl rfl rfl rfl

/-- Claim C4: task ids are never reused within a project's lifetime: the
allocator draws from a monotonically increasing per-project counter that
deletion does not decrease, so after deleting any task and adding a new
one, the new task's id `task-(c+1)` differs from every id allocated while
the counter ran up to `c` — in particular from every task currently in the
project and from the deleted one.  The hypothesis `hinv` is the allocator
invariant: every existing id was drawn from the counter's past values. -/
theorem c4_no_id_reuse (s : State) (pid tid title description : String)
    (p : Project) (s1 s2 : State)
    (hp : findProject s pid = some p)
    (hinv : ∀ u ∈ p.tasks, ∃ i, 1 ≤ i ∧ i ≤ p.taskCounter ∧ u.id = mkTaskId i)
    (hdel : deleteTask s pid tid = .ok s1)
    (hadd : addTask s1 pid title description = .ok s2) :
    ∃ p2, findProject s2 pid = some p2 ∧
      p2.tasks.getLast? =
        some (mkTask (mkTaskId (p.taskCounter + 1)) title description) ∧
      (∀ i, 1 ≤ i → i ≤ p.taskCounter →
        mkTaskId (p.taskCounter + 1) ≠ mkTaskId i) ∧
      (∀ u ∈ p.tasks, u.id ≠ mkTaskId (p.taskCounter + 1)) := by
  have hp' : s.projects.find? (fun q => q.projectId == pid) = some p := hp
  have hqp : (p.projectId == pid) = true := by
    simpa using List.find?_some hp'
  unfold deleteTask at hdel
  rw [hp] at hdel
  dsimp only at hdel
  rcases htd : findTask p tid with _ | t
  · rw [htd] at hdel
    simp at hdel
  · rw [htd] at hdel
    dsimp only at hdel
    injection hdel with hdel'
    subst hdel'
    have hp1 : findProject
        (replaceProject s pid
          { p with tasks := p.tasks.filter (fun u => u.id != tid) }) pid =
        some { p with tasks := p.tasks.filter (fun u => u.id != tid) } :=
      find?_map_replace _ _ (by simpa using hqp) _ p hp
    rw [addTask_eq _ pid title description _ hp1] at hadd
    split_ifs at hadd with hempty
    injection hadd with hadd'
    subst hadd'
    refine ⟨{ { p with tasks := p.tasks.filter (fun u => u.id != tid) } with
      tasks := ({ p with tasks := p.tasks.filter (fun u => u.id != tid) } :
          Project).tasks ++
        [mkTask (nextTaskId
          { p with tasks := p.tasks.filter (fun u => u.id != tid) })
          title description],
      taskCounter := p.taskCounter + 1 }, ?_, ?_, ?_, ?_⟩
    · exact find?_map_replace _ _ (by simpa using hqp) _ _ hp1
    · exact List.getLast?_concat _
    · intro i h1 h2 heq
      have := mkTaskId_inj heq
      omega
    · intro u hu heq
      obtain ⟨i, hi1, hi2, hid⟩ := hinv u hu
      have : i = p.taskCounter + 1 := mkTaskId_inj (hid ▸ heq)
      omega

/-- First task of the C4 witness scenario. -/
def taskOne : Task :=
  { id := mkTaskId 1, title := "a", description := "d",
    status := .notStarted, approved := false, completedDetails := "",
    toolRecommendations := none, ruleRecommendations := none }

/-- Second task of the C4 witness scenario (the one deleted). -/
def taskTwo : Task :=
  { id := mkTaskId 2, title := "b", description := "d",
    status := .notStarted, approved := false, completedDetails := "",
    toolRecommendations := none, ruleRecommendations := none }

/-- Third task of the C4 witness scenario. -/
def taskThree : Task :=
  { id := mkTaskId 3, title := "c", description := "d",
    status := .notStarted, approved := false, completedDetails := "",
    toolRecommendations := none, ruleRecommendations := none }

/-- The 3-task project of the C4 witness scenario: counter at 3. -/
def projTasks3 : Project :=
  { projectId := "proj-1", initialPrompt := "p", projectPlan := "p",
    autoApprove := false, completed := false, taskCounter := 3,
    tasks := [taskOne, taskTwo, taskThree] }

/-- The state of the C4 witness scenario. -/
def stateTasks3 : State := { projects := [projTasks3], projectCounter := 1 }

/-- The C4 witness state after deleting `task-2`: counter still 3. -/
def stateTasks3Del : State :=
  { projects := [{ projTasks3 with tasks := [taskOne, taskThree] }],
    projectCounter := 1 }

/-- The C4 witness state after adding a new task: it gets `task-4`. -/
def stateTasks3Add : State :=
  { projects := [{ projTasks3 with
      tasks := [taskOne, taskThree, mkTask (mkTaskId 4) "n" "nd"],
      taskCounter := 4 }],
    projectCounter := 1 }

/-- Witness for C4 at the spec's concrete scenario: deleting `task-2` from
a 3-task project and then adding a task yields `task-4`, never `task-2`. -/
theorem c4_no_id_reuse_witness :
    ∃ p2, findProject stateTasks3Add "proj-1" = some p2 ∧
      p2.tasks.getLast? = some (mkTask (mkTaskId 4) "n" "nd") ∧
      (∀ i, 1 ≤ i → i ≤ 3 → mkTaskId 4 ≠ mkTaskId i) ∧
      (∀ u ∈ projTasks3.tasks, u.id ≠ mkTaskId 4) :=
  c4_no_id_reuse stateTasks3 "proj-1" (mkTaskId 2) "n" "nd" projTasks3
    stateTasks3Del stateTasks3Add rfl
    (by
      intro u hu
      simp [projTasks3] at hu
      rcases hu with h | h | h <;> subst h
      · exact ⟨1, by decide, by decide, rfl⟩
      · exact ⟨2, by decide, by decide, rfl⟩
      · exact ⟨3, by decide, by decide, rfl⟩)
    rfl rfl

/-- Claim C7: a mutating Manager operation performs exactly one Store save
call if and only if it succeeded (its validation passed); when it fails
with a structured error, no save occurs and the persisted file is
unchanged. -/
theorem c7_save_iff_valid (op : State → Except AppError State)
    (file : Option Json) :
    ((runMutating op file).saves = 1 ↔
      ∃ s s', loadStore file = .ok s ∧ op s = .ok s') ∧
    ((runMutating op file).error = none ↔ (runMutating op file).saves = 1) ∧
    (∀ e, (runMutating op file).error = some e →
      (runMutating op file).saves = 0 ∧
      (runMutating op file).file = file) := by
  unfold runMutating
  rcases hl : loadStore file with e | s
  · dsimp only
    refine ⟨by simp, by simp, by simp⟩
  · dsimp only
    rcases hop : op s with e | s'
    · dsimp only
      refine ⟨?_, by simp, by simp⟩
      simp [hop]
    · dsimp only
      refine ⟨?_, by simp, by simp⟩
      simp only [true_iff]
      exact ⟨s, s', rfl, hop⟩

/-- Witness for C7 at a concrete input: finalizing an unknown project on an
absent backing file fails, performs no save and leaves the file absent. -/
theorem c7_save_iff_valid_witness :
    (runMutating (fun σ => finalizeProject σ "proj-1") none).saves = 0 ∧
    (runMutating (fun σ => finalizeProject σ "proj-1") none).file = none :=
  (c7_save_iff_valid (fun σ => finalizeProject σ "proj-1") none).2.2
    .notFoundError rfl

/-- Claim C8: saving a State through the Store and loading it back yields
the identical State, field for field. -/
theorem c8_roundtrip (s : State) : loadStore (saveStore s) = .ok s :=
  loadStore_saveStore s

/-- Claim C9: `load` on a missing backing file yields the empty initial
state (projects empty) rather than an error, and `load` on a present file
fails with `ParseError` exactly when the file is malformed (its document
does not decode as a State). -/
theorem c9_load_missing_or_malformed :
    loadStore none = .ok emptyState ∧
    (∀ j : Json, decodeState j = none →
      loadStore (some j) = .error .parseError) ∧
    (∀ j : Json, loadStore (some j) = .error .parseError →
      decodeState j = none) := by
  refine ⟨rfl, ?_, ?_⟩
  · intro j h
    unfold loadStore
    dsimp only
    rw [h]
  · intro j h
    rcases hd : decodeState j with _ | s
    · rfl
    · unfold loadStore at h
      dsimp only at h
      rw [hd] at h
      simp at h

/-- Witness for C9 at a concrete input: a present but malformed document
(a bare number) fails to decode and `load` reports `ParseError`. -/
theorem c9_load_missing_or_malformed_witness :
    decodeState (Json.num 5) = none ∧
    loadStore (some (Json.num 5)) = .error .parseError :=
  ⟨rfl, c9_load_missing_or_malformed.2.1 (Json.num 5) rfl⟩

end TaskQueue

